import Mathlib

/-!
Shallow embedding of the kurento-go connection/transport layer
(the current revision of `connection.go`: atomic int64 correlation
counter, `threadsafeClientMap`, `threadsafeSubscriberMap`).

Go dynamic values (`interface{}` entries of the `map[string]interface{}`
maps) are modelled by `Kurento.GoVal`; Go maps with string keys by
association lists with Go map semantics (`alSet` = `m[k] = v`,
`alErase` = `delete(m, k)`, `alGet` = lookup with presence).
The per-call delivery channel is modelled by recording, for each
processed frame, which registered waiter id (if any) a `Response` was
sent to; the set of waiter ids with a registered channel is the
`clients` field.  A Go runtime panic caused by a failed type assertion
is modelled as `Option`-valued `none`.
-/

namespace Kurento

/-- A Go dynamic value as produced by `encoding/json` decoding into
`interface{}` fields, plus `vInt` for the `int64` values this layer
itself stores into request maps (`req["id"] = reqId`). -/
inductive GoVal where
  | null
  | vBool (b : Bool)
  | vInt (n : Int)
  | vStr (s : String)
  | vObj (fields : List (String × GoVal))
  deriving Repr

/-- Go map lookup `m[k]` (with presence bit): first binding wins;
key sets of maps built by `alSet`/`alErase` stay duplicate-free. -/
def alGet {α : Type} (m : List (String × α)) (k : String) : Option α :=
  match m with
  | [] => none
  | (k', v) :: rest => if k' = k then some v else alGet rest k

/-- Go map update `m[k] = v`. -/
def alSet {α : Type} (m : List (String × α)) (k : String) (v : α) :
    List (String × α) :=
  match m with
  | [] => [(k, v)]
  | (k', v') :: rest =>
      if k' = k then (k, v) :: rest else (k', v') :: alSet rest k v

/-- Go map deletion `delete(m, k)`. -/
def alErase {α : Type} (m : List (String × α)) (k : String) :
    List (String × α) :=
  match m with
  | [] => []
  | (k', v') :: rest =>
      if k' = k then rest else (k', v') :: alErase rest k

theorem alGet_alSet_self {α : Type} (m : List (String × α)) (k : String)
    (v : α) : alGet (alSet m k v) k = some v := by
  induction m with
  | nil => simp [alSet, alGet]
  | cons hd tl ih =>
      obtain ⟨k', v'⟩ := hd
      by_cases h : k' = k <;> simp [alSet, alGet, h, ih]

theorem alGet_alSet_ne {α : Type} (m : List (String × α)) (k k' : String)
    (v : α) (h : k ≠ k') : alGet (alSet m k v) k' = alGet m k' := by
  induction m with
  | nil => simp [alSet, alGet, h]
  | cons hd tl ih =>
      obtain ⟨k₀, v₀⟩ := hd
      by_cases h₀ : k₀ = k
      · subst h₀
        simp [alSet, alGet, h]
      · simp [alSet, alGet, h₀, ih]

theorem alGet_eq_none_of_not_mem {α : Type} (m : List (String × α))
    (k : String) (h : k ∉ m.map Prod.fst) : alGet m k = none := by
  induction m with
  | nil => rfl
  | cons hd tl ih =>
      obtain ⟨k', v'⟩ := hd
      simp only [List.map_cons, List.mem_cons, not_or] at h
      have hne : ¬ k' = k := fun hc => h.1 hc.symm
      simp [alGet, hne, ih h.2]

theorem alGet_alErase_self {α : Type} (m : List (String × α)) (k : String)
    (hnd : (m.map Prod.fst).Nodup) : alGet (alErase m k) k = none := by
  induction m with
  | nil => rfl
  | cons hd tl ih =>
      obtain ⟨k', v'⟩ := hd
      simp only [List.map_cons, List.nodup_cons] at hnd
      by_cases h : k' = k
      · subst h
        simpa [alErase] using alGet_eq_none_of_not_mem tl k' hnd.1
      · simp [alErase, alGet, h, ih hnd.2]

/-- The element type of `threadsafeSubscriberMap.subscribers`:
`eventName -> objectId -> handlerId -> handler`.  A handler
(`type eventHandler func(map[string]interface{})`) is opaque to this
layer; it is identified by a tag. -/
abbrev eventHandler := Nat

abbrev SubscriberMap :=
  List (String × List (String × List (String × eventHandler)))

/-- `type Error struct { Code int64; Message string; Data interface{} }`. -/
structure Error where
  code : Int
  message : String
  data : Option GoVal
  deriving Repr

/-- `type Response struct { Jsonrpc string; Id int64; Result map[string]interface{}; Error *Error }`.
`result = none` models a nil `Result` map, `error = none` a nil
`Error` pointer. -/
structure Response where
  jsonrpc : String
  id : Int
  result : Option (List (String × GoVal))
  error : Option Error
  deriving Repr

/-- `type Event struct { Jsonrpc string; Method string; Params map[string]interface{}; Error *Error }`. -/
structure Event where
  jsonrpc : String
  method : String
  params : List (String × GoVal)
  error : Option Error
  deriving Repr

/-- One raw inbound websocket message, seen through the two
`json.Unmarshal` attempts `handleResponse` makes on it: decoding into
`Response` and decoding into `Event`.  `none` models a decode error
(`json.Unmarshal` returning non-nil `err`, which makes the
corresponding `unmarshal` return `false`). -/
structure InFrame where
  asResponse : Option Response
  asEvent : Option Event

/-- Body of `func (r *Response) unmarshal`` after a successful decode:
`r.Id > 0 && (r.Result != nil || r.Error != nil)`. -/
def respValid (r : Response) : Bool :=
  decide (0 < r.id) && (r.result.isSome || r.error.isSome)

/-- Body of `func (e *Event) unmarshal` after a successful decode:
`e.Method == "onEvent"`. -/
def evValid (e : Event) : Bool :=
  e.method == "onEvent"

/-- `isResponse := r.unmarshal(incoming)`. -/
def isResponseFrame (f : InFrame) : Bool :=
  match f.asResponse with
  | some r => respValid r
  | none => false

/-- `isEvent := ev.unmarshal(incoming)`. -/
def isEventFrame (f : InFrame) : Bool :=
  match f.asEvent with
  | some e => evValid e
  | none => false

/-- The `Connection` state this layer mutates.  `clients` holds the ids
that key a registered waiter channel in
`threadsafeClientMap.clients`; `subscribers` is
`threadsafeSubscriberMap.subscribers`; `eChanClosed` records
`close(c.eChan)`; `deadSig` records that `true` was sent on `c.Dead`. -/
structure Connection where
  clientId : Int
  clients : List Int
  SessionId : String
  subscribers : SubscriberMap
  IsDead : Bool
  eChanClosed : Bool
  deadSig : Bool
  deriving Repr

/-- A fresh `Connection` as built by `NewConnection` (before any
traffic): zero atomic counter, empty maps, alive. -/
def newConnection : Connection :=
  { clientId := 0, clients := [], SessionId := "", subscribers := []
    IsDead := false, eChanClosed := false, deadSig := false }

/-- The comma-ok type assertion
`sessionID, ok := r.Result["sessionId"].(string)`: `some` exactly when
the (possibly nil) result map holds a string under `"sessionId"`. -/
def sessionOf (r : Response) : Option String :=
  match r.result with
  | none => none
  | some res =>
      match alGet res "sessionId" with
      | some (GoVal.vStr s) => some s
      | _ => none

/-- The sessionId-saving step at the top of `handleResponse`'s
`isResponse` branch:
`if sessionID, ok := r.Result["sessionId"].(string); ok && sessionID != "" && c.SessionId != sessionID { c.SessionId = sessionID }`. -/
def updateSession (c : Connection) (r : Response) : Connection :=
  match sessionOf r with
  | some s =>
      if s ≠ "" ∧ c.SessionId ≠ s then { c with SessionId := s } else c
  | none => c

/-- What one iteration of `handleResponse` does with a decoded frame. -/
inductive FrameAction where
  | deliver (id : Int) (r : Response)
  | dropNoClient (id : Int)
  | event (e : Event)
  | unrecognized
  deriving Repr

/-- The `else if isEvent` / `else` tail of the dispatch in
`handleResponse`: forward to `c.eChan`, or log
"Unsupported message from KMS". -/
def processNonResponse (c : Connection) (f : InFrame) :
    Connection × FrameAction :=
  match f.asEvent with
  | some e => if evValid e then (c, FrameAction.event e) else (c, FrameAction.unrecognized)
  | none => (c, FrameAction.unrecognized)

/-- One iteration of the `handleResponse` receive loop on a decoded
frame: try `Response` first; on a valid response save the session id,
then deliver to the registered client channel for `r.Id` (closing and
deleting it) or drop with a log when there is none; otherwise fall
through to the event/unrecognized handling. -/
def processFrame (c : Connection) (f : InFrame) : Connection × FrameAction :=
  match f.asResponse with
  | some r =>
      if respValid r then
        let c1 := updateSession c r
        if r.id ∈ c1.clients then
          ({ c1 with clients := c1.clients.erase r.id },
           FrameAction.deliver r.id r)
        else
          (c1, FrameAction.dropNoClient r.id)
      else processNonResponse c f
  | none => processNonResponse c f

/-- The receive-error branch of `handleResponse`:
`c.IsDead = true; c.Dead <- true; close(c.eChan); break`.  No waiter
channel receives anything (second component: the list of deliveries
made by this step), and the pending map is untouched. -/
def deadTransition (c : Connection) : Connection × List (Int × Response) :=
  ({ c with IsDead := true, deadSig := true, eChanClosed := true }, [])

/-- The chain of unchecked type assertions at the top of the
`handleEvents` loop body:
`val := ev.Params["value"].(map[string]interface{})`,
`t := val["type"].(string)`, `objectId := val["object"].(string)`,
`data := val["data"].(map[string]interface{})`.
`none` models the Go runtime panic a failed assertion raises. -/
def eventShape (e : Event) :
    Option (String × String × List (String × GoVal)) :=
  match alGet e.params "value" with
  | some (GoVal.vObj val) =>
      match alGet val "type", alGet val "object", alGet val "data" with
      | some (GoVal.vStr t), some (GoVal.vStr o), some (GoVal.vObj d) =>
          some (t, o, d)
      | _, _, _ => none
  | _ => none

/-- The handlers registered under `(eventName, objectId)`:
`c.events.subscribers[t][objectId]` when both levels exist. -/
def handlersFor (c : Connection) (t o : String) :
    List (String × eventHandler) :=
  match alGet c.subscribers t with
  | none => []
  | some oh =>
      match alGet oh o with
      | none => []
      | some he => he

/-- One iteration of `handleEvents` on an event taken from `c.eChan`:
extract `(type, object, data)` (panicking, `none`, when an assertion
fails) and invoke every handler in `subscribers[t][objectId]` with
`data`.  The result lists the invocations `(handler, data)` made. -/
def dispatchEvent (c : Connection) (e : Event) :
    Option (List (eventHandler × List (String × GoVal))) :=
  match eventShape e with
  | none => none
  | some (t, o, d) => some ((handlersFor c t o).map (fun p => (p.2, d)))

/-- `func (c *Connection) Subscribe(event, objectId, handlerId string, handler eventHandler)`:
create the missing intermediate maps, then `he[handlerId] = handler`. -/
def Subscribe (c : Connection) (event objectId handlerId : String)
    (handler : eventHandler) : Connection :=
  let oh := (alGet c.subscribers event).getD []
  let he := (alGet oh objectId).getD []
  { c with
    subscribers :=
      alSet c.subscribers event (alSet oh objectId (alSet he handlerId handler)) }

/-- `func (c *Connection) Unsubscribe(event, objectId, handlerId string)`:
look up both levels, returning silently when either is missing, then
`delete(he, handlerId)`. -/
def Unsubscribe (c : Connection) (event objectId handlerId : String) :
    Connection :=
  match alGet c.subscribers event with
  | none => c
  | some oh =>
      match alGet oh objectId with
      | none => c
      | some he =>
          { c with
            subscribers :=
              alSet c.subscribers event
                (alSet oh objectId (alErase he handlerId)) }

/-- `const ConnectionLost = -1`. -/
def ConnectionLost : Int := -1

/-- Wrap an unbounded integer into int64 two's-complement range,
modelling `atomic.Int64` overflow. -/
def int64wrap (n : Int) : Int :=
  (n + 2 ^ 63) % 2 ^ 64 - 2 ^ 63

/-- `c.clientId.Add(1)`: atomic int64 increment, returning the new
value. -/
def int64add1 (n : Int) : Int :=
  int64wrap (n + 1)

/-- The synthesized error response both `ConnectionLost` branches of
`Request` build: zero-valued fields except `Id` and `Error`. -/
def connectionLostResp (rid : Int) : Response :=
  { jsonrpc := "", id := rid, result := none
    error := some { code := ConnectionLost
                    message := "No connection to Kurento server"
                    data := none } }

/-- The channel `Request` returns: either a fresh one-slot buffered
channel already holding its single response (`errchan`), or the
registered waiter channel `c.clients.clients[reqId]`. -/
inductive ReqChan where
  | immediate (r : Response)
  | waiter (id : Int)
  deriving Repr

/-- Result of one `Request` call: the mutated connection, the mutated
caller request map, the returned channel, and the envelope passed to
`websocket.JSON.Send` (`none` when no write was attempted). -/
structure ReqOut where
  conn : Connection
  req : List (String × GoVal)
  chan : ReqChan
  wire : Option (List (String × GoVal))
  deriving Repr

/-- The id the dead-connection branch of `Request` puts on the
synthesized response: `req["id"]` when present and an `int64`,
otherwise the zero value. -/
def deadReqId (req : List (String × GoVal)) : Int :=
  match alGet req "id" with
  | some (GoVal.vInt n) => n
  | _ => 0

/-- `func (c *Connection) Request(req map[string]interface{}) <-chan Response`.
`sendOk` is the outcome of `websocket.JSON.Send` (false = write error).
Dead branch: build `errchan` without touching the wire or the counter.
Live branch: `reqId := c.clientId.Add(1)`, `req["id"] = reqId`, attach
`sessionId` when non-empty, register the waiter channel, send; on send
error mark dead, delete the registration and return `errchan` carrying
`req["id"].(int64)`. -/
def Request (c : Connection) (req : List (String × GoVal)) (sendOk : Bool) :
    ReqOut :=
  if c.IsDead then
    { conn := c, req := req
      chan := ReqChan.immediate (connectionLostResp (deadReqId req))
      wire := none }
  else
    let reqId := int64add1 c.clientId
    let req1 := alSet req "id" (GoVal.vInt reqId)
    let req2 :=
      if c.SessionId ≠ "" then alSet req1 "sessionId" (GoVal.vStr c.SessionId)
      else req1
    let c1 := { c with clientId := reqId, clients := reqId :: c.clients }
    if sendOk then
      { conn := c1, req := req2, chan := ReqChan.waiter reqId
        wire := some req2 }
    else
      { conn := { c1 with IsDead := true, deadSig := true
                          clients := c1.clients.erase reqId }
        req := req2
        chan := ReqChan.immediate (connectionLostResp (deadReqId req2))
        wire := some req2 }

/-- Issue a sequence of `Request` calls whose writes all succeed,
collecting the id assigned to each (the counter value after its
`Add(1)`). -/
def runRequests (c : Connection) : List (List (String × GoVal)) →
    Connection × List Int
  | [] => (c, [])
  | req :: rest =>
      let out := Request c req true
      let p := runRequests out.conn rest
      (p.1, out.conn.clientId :: p.2)

/-! Concrete inputs used by counterexamples and witnesses. -/

/-- A well-formed response whose only result field is a fresh
`sessionId`, carrying an id (7) that no waiter has registered. -/
def respSess : Response :=
  { jsonrpc := "2.0", id := 7
    result := some [("sessionId", GoVal.vStr "s1")], error := none }

/-- The inbound frame for `respSess`: decoding the same raw message
into `Event` succeeds but yields an empty method. -/
def frameSess : InFrame :=
  { asResponse := some respSess
    asEvent := some { jsonrpc := "2.0", method := "", params := [], error := none } }

/-- A response carrying both a non-nil result and a non-nil error. -/
def respBoth : Response :=
  { jsonrpc := "2.0", id := 1, result := some [("value", GoVal.vStr "ok")]
    error := some { code := 5, message := "m", data := none } }

/-- The inbound frame for `respBoth`. -/
def frameBoth : InFrame :=
  { asResponse := some respBoth
    asEvent := some { jsonrpc := "2.0", method := "", params := [], error := none } }

/-- A connection with one registered waiter, id 1. -/
def connPending1 : Connection :=
  { newConnection with clientId := 1, clients := [1] }

/-- An event frame whose method is `"onEvent"` but whose params hold
no `"value"` object at all. -/
def evBad : Event :=
  { jsonrpc := "2.0", method := "onEvent", params := [], error := none }

/-- The inbound frame for `evBad`: the same raw message decodes into
`Response` with zero id and nil result/error. -/
def frameBad : InFrame :=
  { asResponse := some { jsonrpc := "2.0", id := 0, result := none, error := none }
    asEvent := some evBad }

/-- A frame that decodes into both shapes but satisfies neither
classifier: no id, no result, no error, and a method that is not
`"onEvent"`. -/
def framePing : InFrame :=
  { asResponse := some { jsonrpc := "2.0", id := 0, result := none, error := none }
    asEvent := some { jsonrpc := "2.0", method := "ping", params := [], error := none } }

/-- A well-formed `onEvent` frame: type `"T"`, object `"O"`, data
`{msg: "boom"}`. -/
def evGood : Event :=
  { jsonrpc := "2.0", method := "onEvent"
    params := [("value", GoVal.vObj
      [("type", GoVal.vStr "T"), ("object", GoVal.vStr "O"),
       ("data", GoVal.vObj [("msg", GoVal.vStr "boom")])])]
    error := none }

/-! Shared lemmas about the embedded operations. -/

theorem int64wrap_eq_self (n : Int) (h1 : -(2 ^ 63) ≤ n) (h2 : n < 2 ^ 63) :
    int64wrap n = n := by
  unfold int64wrap
  have h0 : (0 : Int) ≤ n + 2 ^ 63 := by linarith
  have hlt : n + 2 ^ 63 < 2 ^ 64 := by
    have he : (2 : Int) ^ 64 = 2 ^ 63 + 2 ^ 63 := by norm_num
    linarith
  rw [Int.emod_eq_of_lt h0 hlt]
  ring

theorem updateSession_clients (c : Connection) (r : Response) :
    (updateSession c r).clients = c.clients := by
  unfold updateSession
  rcases sessionOf r with _ | s
  · rfl
  · by_cases hc : s ≠ "" ∧ c.SessionId ≠ s <;> simp [hc]

theorem updateSession_changed (c : Connection) (r : Response)
    (h : (updateSession c r).SessionId ≠ c.SessionId) :
    ∃ s, sessionOf r = some s ∧ s ≠ "" ∧ c.SessionId ≠ s ∧
      (updateSession c r).SessionId = s := by
  unfold updateSession at *
  rcases hs : sessionOf r with _ | s <;> simp only [hs] at h ⊢
  · exact absurd rfl h
  · by_cases hc : s ≠ "" ∧ c.SessionId ≠ s
    · exact ⟨s, rfl, hc.1, hc.2, by simp [hc]⟩
    · simp [hc] at h

theorem updateSession_sets (c : Connection) (r : Response) (s : String)
    (hs : sessionOf r = some s) (hne : s ≠ "") (hcur : c.SessionId ≠ s) :
    (updateSession c r).SessionId = s := by
  unfold updateSession
  rw [hs]
  simp [hne, hcur]

theorem alSet_mem_self {α : Type} (m : List (String × α)) (k : String)
    (v : α) : (k, v) ∈ alSet m k v := by
  induction m with
  | nil => simp [alSet]
  | cons hd tl ih =>
      obtain ⟨k', v'⟩ := hd
      by_cases h : k' = k <;> simp [alSet, h, ih]

theorem alGet_id_after_assign (req : List (String × GoVal)) (rid : Int)
    (sid : String) :
    alGet (if sid = "" then alSet req "id" (GoVal.vInt rid)
           else alSet (alSet req "id" (GoVal.vInt rid)) "sessionId"
             (GoVal.vStr sid)) "id" = some (GoVal.vInt rid) := by
  by_cases hs : sid = ""
  · rw [if_pos hs, alGet_alSet_self]
  · rw [if_neg hs, alGet_alSet_ne _ _ _ _ (by decide), alGet_alSet_self]

theorem not_mem_keys_of_alGet_none {α : Type} (m : List (String × α))
    (k : String) (h : alGet m k = none) : k ∉ m.map Prod.fst := by
  induction m with
  | nil => simp
  | cons hd tl ih =>
      obtain ⟨k', v'⟩ := hd
      by_cases hk : k' = k
      · simp [alGet, hk] at h
      · simp only [alGet, if_neg hk] at h
        simp only [List.map_cons, List.mem_cons, not_or]
        exact ⟨fun hc => hk hc.symm, ih h⟩

/-! Claim theorems. -/

/-- Claim C1, counterexample to the claim as stated: take a connection
with one pending Call (id 3 registered, never responded).  The
receive-error transition (`c.IsDead = true; c.Dead <- true;
close(c.eChan); break`) leaves id 3 registered and delivers nothing to
any waiter — the pending Call does not resolve with `ConnectionLost`;
its waiter blocks forever. -/
theorem dead_transition_strands_pending_waiter :
    ({ newConnection with clientId := 3, clients := [3] } : Connection).clients = [3] ∧
    (deadTransition { newConnection with clientId := 3, clients := [3] }).1.IsDead = true ∧
    (deadTransition { newConnection with clientId := 3, clients := [3] }).1.clients = [3] ∧
    (deadTransition { newConnection with clientId := 3, clients := [3] }).2 = [] :=
  ⟨rfl, rfl, rfl, rfl⟩

/-- Claim C1, amended: when the connection dies, already-pending Calls
are NOT resolved.  The read-error transition marks the connection dead,
signals `Dead`, and closes the event channel, but leaves the pending
set unchanged and delivers nothing to any registered waiter; a write
failure inside `Request` delivers a synthesized `ConnectionLost` only
on the failing call's own fresh channel and removes only its own id,
leaving every previously pending Call registered and unresolved. -/
theorem dead_transition_resolves_no_pending_call (c : Connection)
    (req : List (String × GoVal)) :
    (deadTransition c).1.clients = c.clients ∧
    (deadTransition c).2 = [] ∧
    (deadTransition c).1.IsDead = true ∧
    (c.IsDead = false →
      (Request c req false).conn.clients = c.clients ∧
      (Request c req false).chan =
        ReqChan.immediate (connectionLostResp (int64add1 c.clientId))) := by
  refine ⟨rfl, rfl, rfl, fun hlive => ?_⟩
  constructor
  · simp [Request, hlive]
  · simp only [Request, hlive, Bool.false_eq_true, if_false, ne_eq, ite_not,
      deadReqId]
    rw [alGet_id_after_assign]

/-- Witness for `dead_transition_resolves_no_pending_call` at a
concrete live connection. -/
theorem dead_transition_resolves_no_pending_call_witness :
    (deadTransition { newConnection with clients := [3] }).1.clients =
        ({ newConnection with clients := [3] } : Connection).clients ∧
    (deadTransition { newConnection with clients := [3] }).2 = [] ∧
    (deadTransition { newConnection with clients := [3] }).1.IsDead = true ∧
    (({ newConnection with clients := [3] } : Connection).IsDead = false →
      (Request { newConnection with clients := [3] } [] false).conn.clients =
          ({ newConnection with clients := [3] } : Connection).clients ∧
      (Request { newConnection with clients := [3] } [] false).chan =
        ReqChan.immediate (connectionLostResp
          (int64add1 ({ newConnection with clients := [3] } : Connection).clientId))) :=
  dead_transition_resolves_no_pending_call { newConnection with clients := [3] } []

/-- Claim C2 (confirmed): a `Request` entered with `IsDead` already
true leaves the connection untouched (nothing registered, counter not
advanced), performs no websocket write, does not mutate the caller's
request map, and returns a fresh one-slot channel holding exactly one
response whose `Error` is code `-1` with the fixed message. -/
theorem request_on_dead_connection (c : Connection)
    (req : List (String × GoVal)) (sendOk : Bool) (h : c.IsDead = true) :
    (Request c req sendOk).conn = c ∧
    (Request c req sendOk).wire = none ∧
    (Request c req sendOk).req = req ∧
    (Request c req sendOk).chan =
      ReqChan.immediate (connectionLostResp (deadReqId req)) ∧
    (connectionLostResp (deadReqId req)).error =
      some { code := ConnectionLost, message := "No connection to Kurento server"
             data := none } ∧
    ConnectionLost = -1 := by
  refine ⟨?_, ?_, ?_, ?_, rfl, rfl⟩ <;> simp [Request, h]

/-- Witness for `request_on_dead_connection` at a concrete dead
connection. -/
theorem request_on_dead_connection_witness :
    (Request { newConnection with IsDead := true } [] true).conn =
      { newConnection with IsDead := true } ∧
    (Request { newConnection with IsDead := true } [] true).wire = none ∧
    (Request { newConnection with IsDead := true } [] true).req = [] ∧
    (Request { newConnection with IsDead := true } [] true).chan =
      ReqChan.immediate (connectionLostResp (deadReqId [])) ∧
    (connectionLostResp (deadReqId [])).error =
      some { code := ConnectionLost, message := "No connection to Kurento server"
             data := none } ∧
    ConnectionLost = -1 :=
  request_on_dead_connection { newConnection with IsDead := true } [] true rfl

/-- Claim C9 (confirmed): when the websocket write fails after a fresh
id was assigned and registered, `Request` returns with the connection
marked dead, the just-registered entry removed (the pending set is
exactly what it was before the call, so the id keys no waiter if it
did not before), and a one-slot channel holding a single response that
carries the assigned id (`req["id"].(int64)`, which the live branch
set to the fresh id) and the `ConnectionLost` error. -/
theorem request_send_failure_cleanup (c : Connection)
    (req : List (String × GoVal)) (h : c.IsDead = false) :
    (Request c req false).conn.IsDead = true ∧
    (Request c req false).conn.deadSig = true ∧
    (Request c req false).conn.clients = c.clients ∧
    (int64add1 c.clientId ∉ c.clients →
      int64add1 c.clientId ∉ (Request c req false).conn.clients) ∧
    alGet (Request c req false).req "id" =
      some (GoVal.vInt (int64add1 c.clientId)) ∧
    (Request c req false).chan =
      ReqChan.immediate (connectionLostResp (int64add1 c.clientId)) ∧
    (connectionLostResp (int64add1 c.clientId)).error =
      some { code := ConnectionLost, message := "No connection to Kurento server"
             data := none } := by
  refine ⟨?_, ?_, ?_, ?_, ?_, ?_, rfl⟩
  · simp [Request, h]
  · simp [Request, h]
  · simp [Request, h]
  · intro hni
    simp [Request, h, hni]
  · simp only [Request, h, Bool.false_eq_true, if_false, ne_eq, ite_not]
    rw [alGet_id_after_assign]
  · simp only [Request, h, Bool.false_eq_true, if_false, ne_eq, ite_not,
      deadReqId]
    rw [alGet_id_after_assign]

/-- Witness for `request_send_failure_cleanup` on a fresh connection. -/
theorem request_send_failure_cleanup_witness :
    (Request newConnection [] false).conn.IsDead = true ∧
    (Request newConnection [] false).conn.deadSig = true ∧
    (Request newConnection [] false).conn.clients = newConnection.clients ∧
    (int64add1 newConnection.clientId ∉ newConnection.clients →
      int64add1 newConnection.clientId ∉ (Request newConnection [] false).conn.clients) ∧
    alGet (Request newConnection [] false).req "id" =
      some (GoVal.vInt (int64add1 newConnection.clientId)) ∧
    (Request newConnection [] false).chan =
      ReqChan.immediate (connectionLostResp (int64add1 newConnection.clientId)) ∧
    (connectionLostResp (int64add1 newConnection.clientId)).error =
      some { code := ConnectionLost, message := "No connection to Kurento server"
             data := none } :=
  request_send_failure_cleanup newConnection [] rfl

/-- Claim C10 (confirmed): the dead branch of `Request` never touches
the id counter; the synthesized response's id is the `int64` stored
under `"id"` in the caller's map when there is one, and the zero value
otherwise; id `0` matches no registered Call on any connection whose
registered ids are positive (which they are: ids come from `Add(1)`
on a counter starting at 0). -/
theorem dead_request_id_semantics (c : Connection)
    (req : List (String × GoVal)) (sendOk : Bool) (hdead : c.IsDead = true)
    (hpos : ∀ i ∈ c.clients, 0 < i) :
    (Request c req sendOk).conn.clientId = c.clientId ∧
    (Request c req sendOk).chan =
      ReqChan.immediate (connectionLostResp (deadReqId req)) ∧
    (∀ n, alGet req "id" = some (GoVal.vInt n) → deadReqId req = n) ∧
    ((∀ n, alGet req "id" ≠ some (GoVal.vInt n)) → deadReqId req = 0) ∧
    (deadReqId req = 0 → deadReqId req ∉ c.clients) := by
  refine ⟨by simp [Request, hdead], by simp [Request, hdead], ?_, ?_, ?_⟩
  · intro n hn; simp [deadReqId, hn]
  · intro hno
    unfold deadReqId
    rcases hg : alGet req "id" with _ | v
    · rfl
    · rcases v with _ | b | n | s | fs
      · rfl
      · rfl
      · exact absurd hg (hno n)
      · rfl
      · rfl
  · intro h0 hmem
    rw [h0] at hmem
    exact absurd (hpos 0 hmem) (by norm_num)

/-- Witness for `dead_request_id_semantics` with an `int64` id stored
in the caller's map. -/
theorem dead_request_id_semantics_witness :
    (Request { newConnection with IsDead := true }
        [("id", GoVal.vInt 9)] true).conn.clientId =
      ({ newConnection with IsDead := true } : Connection).clientId ∧
    (Request { newConnection with IsDead := true } [("id", GoVal.vInt 9)] true).chan =
      ReqChan.immediate (connectionLostResp (deadReqId [("id", GoVal.vInt 9)])) ∧
    (∀ n, alGet [("id", GoVal.vInt 9)] "id" = some (GoVal.vInt n) →
      deadReqId [("id", GoVal.vInt 9)] = n) ∧
    ((∀ n, alGet [("id", GoVal.vInt 9)] "id" ≠ some (GoVal.vInt n)) →
      deadReqId [("id", GoVal.vInt 9)] = 0) ∧
    (deadReqId [("id", GoVal.vInt 9)] = 0 →
      deadReqId [("id", GoVal.vInt 9)] ∉
        ({ newConnection with IsDead := true } : Connection).clients) :=
  dead_request_id_semantics { newConnection with IsDead := true }
    [("id", GoVal.vInt 9)] true rfl (by simp [newConnection])

/-- Claim C3, counterexample to the claim as stated: a `Response`
frame whose id (7) was never registered is dropped with a log — but
processing it is not free of other state change: the session-token
update runs before the waiter lookup, so the dropped frame still
overwrites `c.SessionId` (here from `""` to `"s1"`). -/
theorem dropped_response_still_updates_session :
    newConnection.clients = [] ∧
    newConnection.SessionId = "" ∧
    (processFrame newConnection frameSess).2 = FrameAction.dropNoClient 7 ∧
    (processFrame newConnection frameSess).1.SessionId = "s1" ∧
    (processFrame newConnection frameSess).1.SessionId ≠ newConnection.SessionId :=
  ⟨rfl, rfl, rfl, rfl, by decide⟩

/-- Claim C3, amended: for every id in the pending set, a `Response`
frame with that id delivers exactly that frame (verbatim) to the
registered waiter and removes the id; a frame whose id is not
registered (never registered, or already removed — under a
duplicate-free pending set an erased id is no longer a member) is
dropped with only a log: no delivery and no change to the pending
set.  The session token, however, may still be overwritten by a
dropped frame, because the token update precedes the waiter lookup. -/
theorem response_correlation_exact (c : Connection) (r : Response)
    (f : InFrame) (hf : f.asResponse = some r) (hv : respValid r = true) :
    (r.id ∈ c.clients →
      (processFrame c f).2 = FrameAction.deliver r.id r ∧
      (processFrame c f).1.clients = c.clients.erase r.id) ∧
    (r.id ∉ c.clients →
      (processFrame c f).2 = FrameAction.dropNoClient r.id ∧
      (processFrame c f).1.clients = c.clients) ∧
    (c.clients.Nodup → r.id ∉ c.clients.erase r.id) ∧
    (processFrame c f).1.SessionId = (updateSession c r).SessionId := by
  have hcl := updateSession_clients c r
  refine ⟨fun hm => ?_, fun hm => ?_, fun hnd => ?_, ?_⟩
  · simp [processFrame, hf, hv, hcl, hm]
  · simp [processFrame, hf, hv, hcl, hm]
  · simp [List.Nodup.mem_erase_iff hnd]
  · by_cases hm : r.id ∈ (updateSession c r).clients <;>
      simp [processFrame, hf, hv, hm]

/-- Witness for `response_correlation_exact`: deliver to the single
registered waiter (id 1). -/
theorem response_correlation_exact_witness :
    ((respBoth.id ∈ connPending1.clients →
      (processFrame connPending1 frameBoth).2 =
        FrameAction.deliver respBoth.id respBoth ∧
      (processFrame connPending1 frameBoth).1.clients =
        connPending1.clients.erase respBoth.id) ∧
    (respBoth.id ∉ connPending1.clients →
      (processFrame connPending1 frameBoth).2 =
        FrameAction.dropNoClient respBoth.id ∧
      (processFrame connPending1 frameBoth).1.clients = connPending1.clients) ∧
    (connPending1.clients.Nodup →
      respBoth.id ∉ connPending1.clients.erase respBoth.id) ∧
    (processFrame connPending1 frameBoth).1.SessionId =
      (updateSession connPending1 respBoth).SessionId) :=
  response_correlation_exact connPending1 respBoth frameBoth rfl rfl

/-- Claim C5, counterexample to the claim as stated: a frame carrying
a positive id and BOTH `result` and `error` is classified as a
`Response` (`r.Id > 0 && (r.Result != nil || r.Error != nil)` is an
or, not an exclusive-or) and is delivered verbatim to the waiter
registered under its id — not treated as Unrecognized, not dropped. -/
theorem frame_with_result_and_error_delivered :
    respBoth.result.isSome = true ∧
    respBoth.error.isSome = true ∧
    respValid respBoth = true ∧
    (processFrame connPending1 frameBoth).2 = FrameAction.deliver 1 respBoth ∧
    (processFrame connPending1 frameBoth).1.clients = [] :=
  ⟨rfl, rfl, rfl, rfl, rfl⟩

/-- Claim C5, amended: the classifier tags a decodable frame as a
Response exactly when it carries a positive id and AT LEAST one of
result/error; a frame with both is a Response and is delivered to its
registered waiter, while a frame with neither (which also fails the
Event shape) is Unrecognized and dropped without any effect. -/
theorem classifier_requires_result_or_error (c : Connection) (r : Response)
    (f : InFrame) (hf : f.asResponse = some r) :
    (isResponseFrame f = true ↔
      0 < r.id ∧ (r.result.isSome ∨ r.error.isSome)) ∧
    (0 < r.id → r.result.isSome ∨ r.error.isSome → r.id ∈ c.clients →
      (processFrame c f).2 = FrameAction.deliver r.id r) ∧
    (r.result = none → r.error = none → isEventFrame f = false →
      processFrame c f = (c, FrameAction.unrecognized)) := by
  refine ⟨?_, fun hid hro hm => ?_, fun hres herr hev => ?_⟩
  · simp [isResponseFrame, hf, respValid]
  · have hv : respValid r = true := by
      simp [respValid, hid]
      rcases hro with h | h <;> simp [h]
    have hm' : r.id ∈ (updateSession c r).clients := by
      rw [updateSession_clients]; exact hm
    simp [processFrame, hf, hv, hm']
  · have hv : respValid r = false := by simp [respValid, hres, herr]
    rcases hae : f.asEvent with _ | e
    · simp [processFrame, hf, hv, processNonResponse, hae]
    · have hev' : evValid e = false := by
        rw [isEventFrame, hae] at hev; exact hev
      simp [processFrame, hf, hv, processNonResponse, hae, hev']

/-- Witness for `classifier_requires_result_or_error` at the
result-and-error frame and a registered waiter. -/
theorem classifier_requires_result_or_error_witness :
    ((isResponseFrame frameBoth = true ↔
      0 < respBoth.id ∧ (respBoth.result.isSome ∨ respBoth.error.isSome)) ∧
    (0 < respBoth.id → respBoth.result.isSome ∨ respBoth.error.isSome →
      respBoth.id ∈ connPending1.clients →
      (processFrame connPending1 frameBoth).2 =
        FrameAction.deliver respBoth.id respBoth) ∧
    (respBoth.result = none → respBoth.error = none →
      isEventFrame frameBoth = false →
      processFrame connPending1 frameBoth =
        (connPending1, FrameAction.unrecognized))) :=
  classifier_requires_result_or_error connPending1 respBoth frameBoth rfl

/-- Claim C6, counterexample to the claim as stated: a frame with
`method == "onEvent"` but params lacking the
`{type, object, data}` value object passes the Event classifier
(`unmarshal` checks only the method), is forwarded to `handleEvents`,
and there the bare type assertion
`ev.Params["value"].(map[string]interface{})` fails: the dispatch
panics (modelled by `none`) instead of logging and discarding the
frame. -/
theorem onEvent_malformed_params_panics :
    isResponseFrame frameBad = false ∧
    isEventFrame frameBad = true ∧
    (processFrame newConnection frameBad).2 = FrameAction.event evBad ∧
    dispatchEvent newConnection evBad = none :=
  ⟨rfl, rfl, rfl, rfl⟩

/-- Claim C6, amended: an inbound frame that is neither a well-formed
Response nor tagged as an Event (its method is not `"onEvent"`, or it
fails to decode) is logged and discarded with no state change, no
delivery and no handler invocation; but a frame whose method IS
`"onEvent"` while its params lack a value object of shape
`{type: string, object: string, data: object}` is forwarded to the
event goroutine, where a failed type assertion panics (`none`) rather
than dropping the frame. -/
theorem unrecognized_frame_dropped_harmlessly (c : Connection)
    (f : InFrame) (e : Event) (h1 : isResponseFrame f = false)
    (h2 : isEventFrame f = false) :
    processFrame c f = (c, FrameAction.unrecognized) ∧
    (eventShape e = none → dispatchEvent c e = none) := by
  constructor
  · rcases hr : f.asResponse with _ | r
    · rcases hae : f.asEvent with _ | ev
      · simp [processFrame, hr, processNonResponse, hae]
      · have hev : evValid ev = false := by
          rw [isEventFrame, hae] at h2; exact h2
        simp [processFrame, hr, processNonResponse, hae, hev]
    · have hv : respValid r = false := by
        rw [isResponseFrame, hr] at h1; exact h1
      rcases hae : f.asEvent with _ | ev
      · simp [processFrame, hr, hv, processNonResponse, hae]
      · have hev : evValid ev = false := by
          rw [isEventFrame, hae] at h2; exact h2
        simp [processFrame, hr, hv, processNonResponse, hae, hev]
  · intro hsh
    simp [dispatchEvent, hsh]

/-- Witness for `unrecognized_frame_dropped_harmlessly`: a frame that
decodes to neither shape (e.g. a notification with a different
method), and the malformed `onEvent` event. -/
theorem unrecognized_frame_dropped_harmlessly_witness :
    isResponseFrame framePing = false ∧
    isEventFrame framePing = false ∧
    (processFrame newConnection framePing =
      (newConnection, FrameAction.unrecognized) ∧
    (eventShape evBad = none → dispatchEvent newConnection evBad = none)) :=
  ⟨rfl, rfl,
    unrecognized_frame_dropped_harmlessly newConnection framePing evBad rfl rfl⟩

/-- Claim C7 (confirmed): across every operation of the layer, the
session token changes only when a processed, well-formed `Response`'s
result carries a string `sessionId` that is non-empty and differs
from the held token — and then it becomes exactly that string;
`Request`, `Subscribe`, `Unsubscribe` and the dead transition never
touch it.  Once the token is non-empty, every envelope handed to
`websocket.JSON.Send` carries it under `"sessionId"`. -/
theorem session_token_discipline (c : Connection) (f : InFrame)
    (req : List (String × GoVal)) (sendOk : Bool)
    (T O H : String) (hdl : eventHandler) :
    ((processFrame c f).1.SessionId ≠ c.SessionId →
      ∃ r s, f.asResponse = some r ∧ respValid r = true ∧
        sessionOf r = some s ∧ s ≠ "" ∧ c.SessionId ≠ s ∧
        (processFrame c f).1.SessionId = s) ∧
    (∀ r s, f.asResponse = some r → respValid r = true →
      sessionOf r = some s → s ≠ "" → c.SessionId ≠ s →
      (processFrame c f).1.SessionId = s) ∧
    (Request c req sendOk).conn.SessionId = c.SessionId ∧
    (Subscribe c T O H hdl).SessionId = c.SessionId ∧
    (Unsubscribe c T O H).SessionId = c.SessionId ∧
    (deadTransition c).1.SessionId = c.SessionId ∧
    (c.SessionId ≠ "" → ∀ w, (Request c req sendOk).wire = some w →
      alGet w "sessionId" = some (GoVal.vStr c.SessionId)) := by
  have hproc : ∀ (hr : Response), f.asResponse = some hr →
      respValid hr = true →
      (processFrame c f).1.SessionId = (updateSession c hr).SessionId := by
    intro r hf hv
    by_cases hm : r.id ∈ (updateSession c r).clients <;>
      simp [processFrame, hf, hv, hm]
  refine ⟨fun hch => ?_, fun r s hf hv hs hne hcur => ?_, ?_, ?_, ?_, rfl, ?_⟩
  · rcases hr : f.asResponse with _ | r
    · exfalso
      apply hch
      simp [processFrame, hr, processNonResponse]
      rcases hae : f.asEvent with _ | ev
      · simp
      · by_cases hev : evValid ev <;> simp [hev]
    · by_cases hv : respValid r = true
      · rw [hproc r hr hv] at hch ⊢
        obtain ⟨s, hs, hne, hcur, hset⟩ := updateSession_changed c r hch
        exact ⟨r, s, rfl, hv, hs, hne, hcur, hset⟩
      · exfalso
        apply hch
        simp only [Bool.not_eq_true] at hv
        simp [processFrame, hr, hv, processNonResponse]
        rcases hae : f.asEvent with _ | ev
        · simp
        · by_cases hev : evValid ev <;> simp [hev]
  · rw [hproc r hf hv]
    exact updateSession_sets c r s hs hne hcur
  · by_cases hd : c.IsDead
    · simp [Request, hd]
    · simp only [Bool.not_eq_true] at hd
      rcases sendOk with _ | _ <;> simp [Request, hd]
  · simp [Subscribe]
  · unfold Unsubscribe
    split
    · rfl
    · split <;> rfl
  · intro hne w hw
    by_cases hd : c.IsDead
    · simp [Request, hd] at hw
    · simp only [Bool.not_eq_true] at hd
      rcases sendOk with _ | _ <;>
        · simp [Request, hd, hne, Option.some.injEq] at hw
          subst hw
          exact alGet_alSet_self _ _ _

/-- Witness for `session_token_discipline` at a fresh connection and
the session-bearing frame. -/
theorem session_token_discipline_witness :
    (((processFrame newConnection frameSess).1.SessionId ≠ newConnection.SessionId →
      ∃ r s, frameSess.asResponse = some r ∧ respValid r = true ∧
        sessionOf r = some s ∧ s ≠ "" ∧ newConnection.SessionId ≠ s ∧
        (processFrame newConnection frameSess).1.SessionId = s) ∧
    (∀ r s, frameSess.asResponse = some r → respValid r = true →
      sessionOf r = some s → s ≠ "" → newConnection.SessionId ≠ s →
      (processFrame newConnection frameSess).1.SessionId = s) ∧
    (Request newConnection [] true).conn.SessionId = newConnection.SessionId ∧
    (Subscribe newConnection "T" "O" "H" 5).SessionId = newConnection.SessionId ∧
    (Unsubscribe newConnection "T" "O" "H").SessionId = newConnection.SessionId ∧
    (deadTransition newConnection).1.SessionId = newConnection.SessionId ∧
    (newConnection.SessionId ≠ "" → ∀ w,
      (Request newConnection [] true).wire = some w →
      alGet w "sessionId" = some (GoVal.vStr newConnection.SessionId))) :=
  session_token_discipline newConnection frameSess [] true "T" "O" "H" 5

theorem handlersFor_Subscribe_self (c : Connection) (T O H : String)
    (h : eventHandler) :
    handlersFor (Subscribe c T O H h) T O = alSet (handlersFor c T O) H h := by
  unfold Subscribe handlersFor
  rcases h1 : alGet c.subscribers T with _ | oh
  · simp [h1, alGet, alGet_alSet_self]
  · rcases h2 : alGet oh O with _ | he <;>
      simp [h1, h2, alGet, alGet_alSet_self]

theorem handlersFor_Subscribe_other_type (c : Connection)
    (T T2 O O2 H : String) (h : eventHandler) (hne : T2 ≠ T) :
    handlersFor (Subscribe c T2 O2 H h) T O = handlersFor c T O := by
  unfold Subscribe handlersFor
  rw [alGet_alSet_ne _ _ _ _ hne]

theorem handlersFor_Subscribe_other_object (c : Connection)
    (T O O2 H : String) (h : eventHandler) (hne : O2 ≠ O) :
    handlersFor (Subscribe c T O2 H h) T O = handlersFor c T O := by
  unfold Subscribe handlersFor
  rcases h1 : alGet c.subscribers T with _ | oh
  · simp [h1, hne, alGet_alSet_self, alGet_alSet_ne _ _ _ _ hne, alGet]
  · simp [h1, hne, alGet_alSet_self, alGet_alSet_ne _ _ _ _ hne]

theorem handlersFor_Unsubscribe_self (c : Connection) (T O H : String) :
    handlersFor (Unsubscribe c T O H) T O = alErase (handlersFor c T O) H := by
  unfold Unsubscribe handlersFor
  rcases h1 : alGet c.subscribers T with _ | oh
  · simp [h1, alErase]
  · rcases h2 : alGet oh O with _ | he
    · simp [h1, h2, alErase]
    · simp [h1, h2, alGet_alSet_self]

theorem dispatchEvent_eq (c : Connection) (e : Event) (t o : String)
    (d : List (String × GoVal)) (hsh : eventShape e = some (t, o, d)) :
    dispatchEvent c e = some ((handlersFor c t o).map (fun p => (p.2, d))) := by
  simp [dispatchEvent, hsh]

/-- Claim C8 (confirmed): dispatching an Event of shape `(T, O, d)`
invokes, with argument `d`, exactly the handlers registered under
`(T, O, anyHandlerId)`; a handler just subscribed under `(T, O, H)`
is among them; subscribing under a different object or a different
event type leaves the `(T, O)` registry untouched; after
`Unsubscribe(T, O, H)` the handler id `H` keys no registered handler
for `(T, O)` (given key uniqueness of the registry level, which Go
maps guarantee); and with no handlers registered for `(T, O)` the
dispatch makes no invocation and raises no error. -/
theorem event_dispatch_matches_registry (c : Connection)
    (T O T2 O2 H : String) (h : eventHandler) (d : List (String × GoVal))
    (e : Event) (hsh : eventShape e = some (T, O, d)) :
    dispatchEvent c e = some ((handlersFor c T O).map (fun p => (p.2, d))) ∧
    (∃ l, dispatchEvent (Subscribe c T O H h) e = some l ∧ (h, d) ∈ l) ∧
    (O2 ≠ O → handlersFor (Subscribe c T O2 H h) T O = handlersFor c T O) ∧
    (T2 ≠ T → handlersFor (Subscribe c T2 O2 H h) T O = handlersFor c T O) ∧
    (((handlersFor c T O).map Prod.fst).Nodup →
      H ∉ (handlersFor (Unsubscribe c T O H) T O).map Prod.fst) ∧
    (handlersFor c T O = [] → dispatchEvent c e = some []) := by
  refine ⟨dispatchEvent_eq c e T O d hsh, ?_, ?_, ?_, ?_, ?_⟩
  · refine ⟨_, dispatchEvent_eq (Subscribe c T O H h) e T O d hsh, ?_⟩
    rw [handlersFor_Subscribe_self]
    exact List.mem_map_of_mem _ (alSet_mem_self _ _ _)
  · exact fun hne => handlersFor_Subscribe_other_object c T O O2 H h hne
  · exact fun hne => handlersFor_Subscribe_other_type c T T2 O O2 H h hne
  · intro hnd
    rw [handlersFor_Unsubscribe_self]
    exact not_mem_keys_of_alGet_none _ _ (alGet_alErase_self _ _ hnd)
  · intro hempty
    rw [dispatchEvent_eq c e T O d hsh, hempty]
    rfl

/-- Witness for `event_dispatch_matches_registry` at a fresh
connection and the well-formed event frame `evGood`. -/
theorem event_dispatch_matches_registry_witness :
    (dispatchEvent newConnection evGood =
      some ((handlersFor newConnection "T" "O").map
        (fun p => (p.2, [("msg", GoVal.vStr "boom")]))) ∧
    (∃ l, dispatchEvent (Subscribe newConnection "T" "O" "H" 5) evGood =
        some l ∧ (5, [("msg", GoVal.vStr "boom")]) ∈ l) ∧
    ("O2" ≠ "O" → handlersFor (Subscribe newConnection "T" "O2" "H" 5) "T" "O" =
      handlersFor newConnection "T" "O") ∧
    ("T2" ≠ "T" → handlersFor (Subscribe newConnection "T2" "O2" "H" 5) "T" "O" =
      handlersFor newConnection "T" "O") ∧
    (((handlersFor newConnection "T" "O").map Prod.fst).Nodup →
      "H" ∉ (handlersFor (Unsubscribe newConnection "T" "O" "H") "T" "O").map
        Prod.fst) ∧
    (handlersFor newConnection "T" "O" = [] →
      dispatchEvent newConnection evGood = some [])) :=
  event_dispatch_matches_registry newConnection "T" "O" "T2" "O2" "H" 5
    [("msg", GoVal.vStr "boom")] evGood rfl

theorem runRequests_spec (reqs : List (List (String × GoVal)))
    (c : Connection) (hlive : c.IsDead = false) (h0 : 0 ≤ c.clientId)
    (hb : c.clientId + reqs.length < 2 ^ 63) :
    (runRequests c reqs).2 =
      (List.range reqs.length).map (fun i : Nat => c.clientId + 1 + (i : Int)) ∧
    (runRequests c reqs).1.clientId = c.clientId + reqs.length ∧
    (runRequests c reqs).1.clients =
      (runRequests c reqs).2.reverse ++ c.clients ∧
    (runRequests c reqs).1.IsDead = false := by
  induction reqs generalizing c with
  | nil => simp [runRequests, hlive]
  | cons req rest ih =>
      have hlen1 : ((req :: rest).length : Int) = (rest.length : Int) + 1 := by
        push_cast [List.length_cons]
        ring
      have hl : (0 : Int) ≤ (rest.length : Int) := Int.natCast_nonneg _
      have hb1 : c.clientId + 1 + (rest.length : Int) < 2 ^ 63 := by
        rw [hlen1] at hb
        linarith
      have hwrap : int64add1 c.clientId = c.clientId + 1 := by
        unfold int64add1
        apply int64wrap_eq_self
        · have h63 : (0 : Int) < 2 ^ 63 := by norm_num
          linarith
        · linarith
      have h0' : (0 : Int) ≤ int64add1 c.clientId := by
        rw [hwrap]
        linarith
      have hb' : int64add1 c.clientId + (rest.length : Int) < 2 ^ 63 := by
        rw [hwrap]
        linarith
      obtain ⟨e1, e2, e3, e4⟩ :=
        ih { c with clientId := int64add1 c.clientId
                    clients := int64add1 c.clientId :: c.clients }
          hlive h0' hb'
      have hstep : runRequests c (req :: rest) =
          ((runRequests { c with clientId := int64add1 c.clientId
                                 clients := int64add1 c.clientId :: c.clients } rest).1,
           int64add1 c.clientId ::
             (runRequests { c with clientId := int64add1 c.clientId
                                   clients := int64add1 c.clientId :: c.clients } rest).2) := by
        simp [runRequests, Request, hlive]
      rw [hstep]
      simp only at e1 e2 e3 e4
      refine ⟨?_, ?_, ?_, e4⟩
      · rw [e1, hwrap, List.length_cons, List.range_succ_eq_map]
        simp only [List.map_cons, List.map_map, Nat.cast_zero, add_zero]
        congr 1
        apply List.map_congr_left
        intro i _
        simp only [Function.comp_apply]
        push_cast
        ring
      · rw [e2, hwrap, hlen1]
        ring
      · rw [e3, e1, hwrap]
        simp only [List.reverse_cons, List.append_assoc, List.singleton_append]

/-- Claim C4 (confirmed for runs short of int64 exhaustion): issuing n
`Request`s on a live connection assigns ids `clientId+1 … clientId+n`:
pairwise distinct (strictly increasing), strictly positive, all larger
than every id handed out before (the counter is never decremented, so
no id is reused), and the pending set keeps at most one Call per id
(it stays duplicate-free).  The bound `clientId + n < 2^63` keeps the
atomic int64 counter from wrapping. -/
theorem correlation_ids_unique_increasing (c : Connection)
    (reqs : List (List (String × GoVal)))
    (hlive : c.IsDead = false) (h0 : 0 ≤ c.clientId)
    (hb : c.clientId + reqs.length < 2 ^ 63)
    (hnd : c.clients.Nodup) (hold : ∀ i ∈ c.clients, i ≤ c.clientId) :
    (runRequests c reqs).2.length = reqs.length ∧
    (runRequests c reqs).2.Pairwise (· < ·) ∧
    (∀ i ∈ (runRequests c reqs).2, 0 < i) ∧
    (∀ i ∈ (runRequests c reqs).2, c.clientId < i) ∧
    (runRequests c reqs).1.clients.Nodup := by
  obtain ⟨e1, e2, e3, e4⟩ := runRequests_spec reqs c hlive h0 hb
  have hgt : ∀ i ∈ (runRequests c reqs).2, c.clientId < i := by
    intro i hi
    rw [e1] at hi
    obtain ⟨j, hj, rfl⟩ := List.mem_map.1 hi
    have : (0 : Int) ≤ (j : Int) := Int.natCast_nonneg _
    linarith
  have hpw : (runRequests c reqs).2.Pairwise (· < ·) := by
    rw [e1]
    refine List.Pairwise.map _ (fun a b hab => ?_) (List.pairwise_lt_range _)
    have : (a : Int) < (b : Int) := by exact_mod_cast hab
    linarith
  refine ⟨by simp [e1], hpw, ?_, hgt, ?_⟩
  · intro i hi
    have := hgt i hi
    linarith
  · rw [e3]
    refine List.Nodup.append (List.nodup_reverse.2 ?_) hnd ?_
    · exact hpw.imp (fun hab => ne_of_lt hab)
    · intro x hx hx'
      have h1 := hgt x (List.mem_reverse.1 hx)
      have h2 := hold x hx'
      linarith

/-- Witness for `correlation_ids_unique_increasing`: two requests on a
fresh connection receive ids 1 and 2. -/
theorem correlation_ids_unique_increasing_witness :
    newConnection.IsDead = false ∧
    (0 : Int) ≤ newConnection.clientId ∧
    newConnection.clientId + ([[], []] : List (List (String × GoVal))).length < 2 ^ 63 ∧
    ((runRequests newConnection [[], []]).2.length =
        ([[], []] : List (List (String × GoVal))).length ∧
      (runRequests newConnection [[], []]).2.Pairwise (· < ·) ∧
      (∀ i ∈ (runRequests newConnection [[], []]).2, 0 < i) ∧
      (∀ i ∈ (runRequests newConnection [[], []]).2,
        newConnection.clientId < i) ∧
      (runRequests newConnection [[], []]).1.clients.Nodup) :=
  ⟨rfl, by decide, by norm_num [newConnection],
    correlation_ids_unique_increasing newConnection [[], []] rfl
      (by decide) (by norm_num [newConnection]) (by simp [newConnection])
      (by simp [newConnection])⟩

end Kurento
